import Mathlib

/-!
Verification of the trusted chain-tip synchronizer (`zebra-rpc/src/sync.rs`)
and the note-commitment subtree records (`zebra-chain/src/subtree.rs`).

Shallow embedding conventions:
* Block hashes and heights are modelled as `Nat` (they are opaque identifiers
  as far as the synchronizer's control flow is concerned).
* `Arc<T>` wrappers are erased (they are pointer sharing, not data).
* The watch-channel sender is modelled by a `hasReceiver : Bool` flag plus a
  trace of published snapshots; `send(..)` succeeds exactly when a receiver
  exists, mirroring `tokio::sync::watch::Sender::send`.
* Network I/O is modelled by passing in response values: the `getblock`
  fetch becomes a function `Height → Option SemanticallyVerifiedBlock`
  (the `.ok()/.and_then(deserialize)/.map(Arc::new)` chain in the source
  collapses every failure into `None`, which this models directly).
-/

namespace ZebraSync

/-- Block hashes, modelled as opaque identifiers. -/
abbrev Hash := Nat

/-- Block heights (`zebra_chain::block::Height`). -/
abbrev Height := Nat

/-- The part of `zebra_chain::block::Header` the synchronizer inspects. -/
structure Header where
  previous_block_hash : Hash
deriving DecidableEq, Repr

/-- The part of `zebra_chain::block::Block` the synchronizer inspects. -/
structure Block where
  header : Header
deriving DecidableEq, Repr

/-- `zebra_state::SemanticallyVerifiedBlock`: a block together with its
precomputed hash and height. -/
structure SemanticallyVerifiedBlock where
  block : Block
  hash : Hash
  height : Height
deriving DecidableEq, Repr

/-- Modelled from the spec: commit errors of the Non-Finalized Chain Store
(`zebra_state::NonFinalizedState` is not under `src/`). §4.2: `commit_block`
"Fails with CommitError::NoMatchingParent if no candidate chain's tip
matches, and with CommitError::Invalid if the block fails structural
checks". -/
inductive CommitError where
  | noMatchingParent
  | invalid
deriving DecidableEq, Repr

/-- Modelled from the spec: the Non-Finalized Chain Store
(`zebra_state::NonFinalizedState` is not under `src/`). §4.2/§3: the store
holds candidate chains rooted at the finalized tip; this model keeps the
best chain as a list of blocks, oldest first. -/
structure NonFinalizedState where
  chain : List SemanticallyVerifiedBlock
deriving DecidableEq, Repr

namespace NonFinalizedState

/-- Modelled from the spec: `NonFinalizedState::new` — "resets to an empty
store rooted at the given finalized tip" (§4.2); the root is implicit, the
store itself starts empty. (In the source the constructor takes the
`Network`, which does not affect the store's contents.) -/
def new : NonFinalizedState := ⟨[]⟩

/-- Modelled from the spec: `best_tip() → Option<(Height, Hash)>` — "current
best chain's tip, or absent if the store is empty" (§4.2). -/
def best_tip (s : NonFinalizedState) : Option (Height × Hash) :=
  s.chain.getLast?.map fun b => (b.height, b.hash)

/-- Modelled from the spec: `best_chain_len()` — "length of the current best
chain above the finalized root, or absent if empty" (§4.2). -/
def best_chain_len (s : NonFinalizedState) : Option Nat :=
  if s.chain.isEmpty then none else some s.chain.length

/-- Modelled from the spec: `commit_new_chain(block)` — "starts a brand-new
candidate chain rooted at block ... Fails if block does not actually extend
the finalized tip" (§4.2). -/
def commit_new_chain (_s : NonFinalizedState) (finalized_tip_hash : Hash)
    (b : SemanticallyVerifiedBlock) : Except CommitError NonFinalizedState :=
  if b.block.header.previous_block_hash = finalized_tip_hash then
    .ok ⟨[b]⟩
  else
    .error .invalid

/-- Modelled from the spec: `commit_block(block)` — "extends an existing
candidate chain whose tip hash equals block's parent hash. Fails with
CommitError::NoMatchingParent if no candidate chain's tip matches" (§4.2). -/
def commit_block (s : NonFinalizedState)
    (b : SemanticallyVerifiedBlock) : Except CommitError NonFinalizedState :=
  match s.chain.getLast? with
  | some tip =>
      if tip.hash = b.block.header.previous_block_hash then
        .ok ⟨s.chain ++ [b]⟩
      else
        .error .noMatchingParent
  | none => .error .noMatchingParent

/-- Modelled from the spec: `finalize()` — "removes the oldest block of the
best chain ... repeated calls drain exactly one block each" (§4.2). -/
def finalize (s : NonFinalizedState) : NonFinalizedState :=
  ⟨s.chain.drop 1⟩

/-- The guard of the drain loop in `sync_from_rpc` (sync.rs lines 274-278):
`best_chain_len().expect(..) > MAX_BLOCK_REORG_HEIGHT`. On an empty store
the source would panic in `expect`; the guard is only reached right after a
successful commit, where the store is non-empty. -/
def overLimit (limit : Nat) (s : NonFinalizedState) : Bool :=
  match s.best_chain_len with
  | some len => len > limit
  | none => false

/-- Fuel-indexed body of the drain loop `while best_chain_len() > limit do
finalize()` (sync.rs lines 274-281). Each `finalize` drops one block, so a
fuel budget of `s.chain.length` is enough for the loop to reach its exit
condition. -/
def drainGo (limit : Nat) : Nat → NonFinalizedState → NonFinalizedState
  | 0, s => s
  | fuel + 1, s => if overLimit limit s then drainGo limit fuel s.finalize else s

/-- The drain loop of `sync_from_rpc` (sync.rs lines 274-281). -/
def drain (limit : Nat) (s : NonFinalizedState) : NonFinalizedState :=
  drainGo limit s.chain.length s

/-- Number of `finalize()` calls the drain loop performs (fuel-indexed). -/
def drainCountGo (limit : Nat) : Nat → NonFinalizedState → Nat
  | 0, _ => 0
  | fuel + 1, s =>
      if overLimit limit s then drainCountGo limit fuel s.finalize + 1 else 0

/-- Number of `finalize()` calls performed by the drain loop of
`sync_from_rpc` (sync.rs lines 274-281). -/
def drainCount (limit : Nat) (s : NonFinalizedState) : Nat :=
  drainCountGo limit s.chain.length s

end NonFinalizedState

/-- `SyncPosition` (sync.rs lines 296-300): the local tip height and hash and
the remote-reported best tip hash carried out of `wait_for_new_blocks`. -/
structure SyncPosition where
  current_tip_height : Height
  current_tip_hash : Hash
  node_tip_hash : Hash
deriving DecidableEq, Repr

/-- The state threaded through the inner catch-up loop of `sync_from_rpc`
(sync.rs lines 221-292): the non-finalized store, the `SyncPosition`
destructured once per outer-loop iteration (lines 215-219; the inner loop
never rebinds it), and the trace of snapshots successfully sent on
`non_finalized_state_sender`. -/
structure SyncState where
  non_finalized_state : NonFinalizedState
  pos : SyncPosition
  published : List NonFinalizedState
deriving DecidableEq, Repr

/-- The error that `?` can propagate out of `sync_from_rpc`'s inner loop:
`non_finalized_state_sender.send(..)?` fails when every receiver has been
dropped (sync.rs lines 245 and 252). -/
inductive SyncError where
  | sendFailed
deriving DecidableEq, Repr

/-- How one iteration of the catch-up loop ends. -/
inductive StepOutcome where
  /-- Fetch absent or filtered out: store reset, reset published, `continue`
  (sync.rs lines 243-247). -/
  | resetContinue
  /-- The explicit `parent_hash != current_tip_hash` branch: store reset,
  reset published, `continue` (sync.rs lines 250-253). -/
  | mismatchReset
  /-- `commit_new_chain`/`commit_block` returned an error: warn and
  `continue` (sync.rs lines 269-272). -/
  | commitFailed
  /-- Successful commit, `block_hash != node_tip_hash`: keep fetching
  (sync.rs lines 283-290, `break` not taken). -/
  | committed
  /-- Successful commit and `block_hash == node_tip_hash`: `break` out of
  the catch-up loop (sync.rs line 288). -/
  | caughtUp
deriving DecidableEq, Repr

/-- The height argument the catch-up loop passes to the `getblock` fetch
(sync.rs line 228): `format!(r#"["{}", 0]"#, current_tip_height.0)` — the
*current* tip height, with no `+ 1`. -/
def syncFetchHeight (pos : SyncPosition) : Height :=
  pos.current_tip_height

/-- One iteration of the inner catch-up loop of `sync_from_rpc` (sync.rs
lines 221-292).

* `limit` is `MAX_BLOCK_REORG_HEIGHT` (imported from `zebra_state`).
* `finalized_tip_hash` is the value of `finalized_state.finalized_tip_hash()`
  (line 257-261; read-only, so passed in).
* `hasReceiver` states whether `non_finalized_state_sender` still has a
  receiver; `send` fails exactly when it does not.
* `fetch` is the `getblock` call with its `.ok()/.and_then(deserialize)`
  chain collapsed into `Option` (lines 227-237).

The fetched block is filtered by
`block.block.header.previous_block_hash == current_tip_hash` (line 242);
an absent or filtered-out fetch takes the `else` reset branch (lines
243-247), whose `send` uses `?`. A surviving block reaches the
`parent_hash != current_tip_hash` test (line 250) and then the commit,
drain and publish logic (lines 255-290). No branch rebinds the
`SyncPosition`. -/
def syncStep (limit : Nat) (finalized_tip_hash : Hash) (hasReceiver : Bool)
    (fetch : Height → Option SemanticallyVerifiedBlock) (st : SyncState) :
    Except SyncError (StepOutcome × SyncState) :=
  match Option.filter
      (fun b => b.block.header.previous_block_hash == st.pos.current_tip_hash)
      (fetch (syncFetchHeight st.pos)) with
  | none =>
      let nfs := NonFinalizedState.new
      if hasReceiver then
        .ok (.resetContinue,
          { st with non_finalized_state := nfs, published := st.published ++ [nfs] })
      else
        .error .sendFailed
  | some block =>
      let parent_hash := block.block.header.previous_block_hash
      if parent_hash ≠ st.pos.current_tip_hash then
        let nfs := NonFinalizedState.new
        if hasReceiver then
          .ok (.mismatchReset,
            { st with non_finalized_state := nfs, published := st.published ++ [nfs] })
        else
          .error .sendFailed
      else
        let block_hash := block.hash
        let commit_result :=
          if finalized_tip_hash = parent_hash then
            st.non_finalized_state.commit_new_chain finalized_tip_hash block
          else
            st.non_finalized_state.commit_block block
        match commit_result with
        | .error _ => .ok (.commitFailed, st)
        | .ok committed_nfs =>
            let drained := committed_nfs.drain limit
            let published :=
              if hasReceiver then st.published ++ [drained] else st.published
            let outcome :=
              if block_hash = st.pos.node_tip_hash then StepOutcome.caughtUp
              else StepOutcome.committed
            .ok (outcome,
              { st with non_finalized_state := drained, published := published })

/-- The outcome of a step, when it did not propagate an error. -/
def stepOutcome (r : Except SyncError (StepOutcome × SyncState)) : Option StepOutcome :=
  match r with
  | .ok (o, _) => some o
  | .error _ => none

/-- Whether a step took the explicit `parent_hash != current_tip_hash` reset
branch (sync.rs lines 250-253). -/
def tookMismatchBranch (r : Except SyncError (StepOutcome × SyncState)) : Bool :=
  match r with
  | .ok (.mismatchReset, _) => true
  | _ => false

/-- Run `n` iterations of the catch-up loop, ignoring `break`/`continue`
distinctions (every outcome of `syncStep` re-enters the loop body in the
source except `caughtUp` and a propagated send error; running further
iterations past those points is only used on runs where they do not occur).
Returns the final state and the outcome trace, or the propagated error. -/
def syncRun (limit : Nat) (finalized_tip_hash : Hash) (hasReceiver : Bool)
    (fetch : Height → Option SemanticallyVerifiedBlock) :
    Nat → SyncState → Except SyncError (List StepOutcome × SyncState)
  | 0, st => .ok ([], st)
  | n + 1, st =>
      match syncStep limit finalized_tip_hash hasReceiver fetch st with
      | .error e => .error e
      | .ok (o, st') =>
          match syncRun limit finalized_tip_hash hasReceiver fetch n st' with
          | .error e => .error e
          | .ok (os, stFinal) => .ok (o :: os, stFinal)

/-- An RPC transport or JSON-RPC error from `json_result_from_call`,
kept abstract. -/
inductive RpcError where
  | transport
deriving DecidableEq, Repr

/-- How one poll iteration of the free function `wait_for_new_blocks`
(sync.rs lines 317-347) ends. -/
inductive FreeWaitOutcome where
  /-- No genesis block yet: sleep 200ms and poll again (lines 336-338). -/
  | sleepRetryGenesis
  /-- Remote hash equals local tip hash: sleep 200ms and poll again
  (lines 343-345). -/
  | sleepRetrySame
  /-- Remote hash differs: `break Ok(SyncPosition::new(..))` (line 342). -/
  | diverged (pos : SyncPosition)
deriving DecidableEq, Repr

/-- One poll iteration of the free function `wait_for_new_blocks` (sync.rs
lines 317-347). `rpcResp` is the result of
`rpc_client.json_result_from_call("getbestblockhash", "[]")`, which the
source immediately unwraps with `?` (line 326), so an RPC failure is
propagated, not retried. `nfsTip` is `non_finalized_state.best_tip()` and
`dbTip` is `finalized_state.tip()` (the offloaded blocking read, whose join
is modelled as succeeding). -/
def wait_for_new_blocks_iter (rpcResp : Except RpcError Hash)
    (nfsTip dbTip : Option (Height × Hash)) : Except RpcError FreeWaitOutcome :=
  match rpcResp with
  | .error e => .error e
  | .ok node_block_hash =>
      match nfsTip.orElse fun _ => dbTip with
      | none => .ok .sleepRetryGenesis
      | some (tip_height, tip_hash) =>
          if node_block_hash ≠ tip_hash then
            .ok (.diverged (SyncPosition.mk tip_height tip_hash node_block_hash))
          else
            .ok .sleepRetrySame

/-- How one poll iteration of the method
`TrustedChainSync::wait_for_new_blocks` (sync.rs lines 61-92) ends. -/
inductive MethodWaitOutcome where
  /-- `get_best_block_hash()` returned `None`: sleep 100ms and poll again
  (lines 64-68). -/
  | sleepRetryAbsent
  /-- No genesis block yet: sleep 200ms and poll again (lines 77-81). -/
  | sleepRetryGenesis
  /-- Remote hash equals local tip hash: sleep 200ms and poll again
  (lines 86-88). -/
  | sleepRetrySame
  /-- Remote hash differs: `break`, the method returns `Ok(())`
  (lines 83-85). -/
  | done
deriving DecidableEq, Repr

/-- One poll iteration of the method `TrustedChainSync::wait_for_new_blocks`
(sync.rs lines 61-92). `rpcResp` is `self.rpc_client.get_best_block_hash()`,
whose implementation absorbs every failure into `None` via `.ok()` (lines
182-187), and the `let Some(..) else` arm sleeps 100ms and continues. -/
def TrustedChainSync_wait_for_new_blocks_iter (rpcResp : Option Hash)
    (nfsTip dbTip : Option (Height × Hash)) : MethodWaitOutcome :=
  match rpcResp with
  | none => .sleepRetryAbsent
  | some node_block_hash =>
      match nfsTip.orElse fun _ => dbTip with
      | none => .sleepRetryGenesis
      | some (_tip_height, tip_hash) =>
          if node_block_hash ≠ tip_hash then .done
          else .sleepRetrySame

/-- The externally observable side effects a `TrustedChainSync` task can
perform, for the frame property of `TrustedChainSync::sync`. -/
inductive SyncEffect where
  /-- `getbestblockhash` RPC call. -/
  | rpcGetBestBlockHash
  /-- `getblock` RPC call at a height. -/
  | rpcGetBlock (h : Height)
  /-- `db.tip()` read offloaded to a blocking context. -/
  | dbTipRead
  /-- `tokio::time::sleep` for the given number of milliseconds. -/
  | sleep (ms : Nat)
  /-- `non_finalized_state_sender.send(..)` (done by `update_channels`). -/
  | sendNonFinalizedState
  /-- `chain_tip_sender.set_best_non_finalized_tip(..)` (done by
  `update_channels`). -/
  | sendChainTip
  /-- A `commit_new_chain`/`commit_block` call on the non-finalized state. -/
  | commitToNonFinalizedState
deriving DecidableEq, Repr

/-- The state a `TrustedChainSync` value owns that is observable through its
handles: the non-finalized store, plus the histories of what was sent on the
non-finalized-state channel and the chain-tip channel. -/
structure TrustedChainSyncState where
  non_finalized_state : NonFinalizedState
  sent_states : List NonFinalizedState
  sent_tips : List (Height × Hash)
deriving DecidableEq, Repr

/-- The effects of one poll iteration of the method
`TrustedChainSync::wait_for_new_blocks` (sync.rs lines 61-92): the
`getbestblockhash` call, then, depending on the responses, a 100ms sleep, a
`db.tip()` read, a 200ms sleep, or nothing (on `break`). The method takes
`&self`, so it mutates no state. -/
def TrustedChainSync_wait_for_new_blocks_effects (s : TrustedChainSyncState)
    (rpcResp : Option Hash) (dbTip : Option (Height × Hash)) : List SyncEffect :=
  SyncEffect.rpcGetBestBlockHash ::
    match rpcResp with
    | none => [SyncEffect.sleep 100]
    | some node_block_hash =>
        match s.non_finalized_state.best_tip with
        | some (_tip_height, tip_hash) =>
            if node_block_hash ≠ tip_hash then [] else [SyncEffect.sleep 200]
        | none =>
            SyncEffect.dbTipRead ::
              match dbTip with
              | none => [SyncEffect.sleep 200]
              | some (_tip_height, tip_hash) =>
                  if node_block_hash ≠ tip_hash then [] else [SyncEffect.sleep 200]

/-- One poll iteration of the loop run by `TrustedChainSync::sync` (sync.rs
lines 95-100): the body only calls `self.wait_for_new_blocks()` (a `&self`
method) and discards its result, so the state is returned unchanged and the
only effects are the method's reads and sleeps. The nested poll loop inside
`wait_for_new_blocks` is flattened into the outer iteration count. -/
def TrustedChainSync_sync_iter (s : TrustedChainSyncState)
    (rpcResp : Option Hash) (dbTip : Option (Height × Hash)) :
    TrustedChainSyncState × List SyncEffect :=
  (s, TrustedChainSync_wait_for_new_blocks_effects s rpcResp dbTip)

/-- `n` poll iterations of the `TrustedChainSync::sync` loop, with the RPC
and database responses of iteration `i` given by `rpcResps i` and
`dbTips i`. Returns the final state and the concatenated effect trace. -/
def TrustedChainSync_sync_run (rpcResps : Nat → Option Hash)
    (dbTips : Nat → Option (Height × Hash)) :
    Nat → TrustedChainSyncState → TrustedChainSyncState × List SyncEffect
  | 0, s => (s, [])
  | n + 1, s =>
      let (s', effs) := TrustedChainSync_sync_iter s (rpcResps n) (dbTips n)
      let (sFinal, effsRest) := TrustedChainSync_sync_run rpcResps dbTips n s'
      (sFinal, effs ++ effsRest)

/-- Whether an effect fetches a block, commits to the non-finalized state,
or sends on the non-finalized-state or chain-tip channels — everything
`TrustedChainSync::sync` must never do. -/
def SyncEffect.isMutating : SyncEffect → Bool
  | .rpcGetBlock _ => true
  | .sendNonFinalizedState => true
  | .sendChainTip => true
  | .commitToNonFinalizedState => true
  | _ => false

/-- A block literal: parent hash, own hash, height. -/
def mkBlock (parent ownHash height : Nat) : SemanticallyVerifiedBlock :=
  ⟨⟨⟨parent⟩⟩, ownHash, height⟩

/-- Concrete run input: a block extending the finalized tip — parent hash 5
(the finalized tip hash), own hash 6, height 101. -/
def exBlockOnFinalizedTip : SemanticallyVerifiedBlock := mkBlock 5 6 101

/-- Concrete run input: start of catch-up with an empty store and the
position `wait_for_new_blocks` computes from the finalized tip (height 100,
hash 5), with remote best tip hash 9. -/
def exStartState : SyncState := ⟨NonFinalizedState.new, ⟨100, 5, 9⟩, []⟩

/-- Concrete run input: the remote always serves `exBlockOnFinalizedTip`. -/
def exFetchOnTip : Height → Option SemanticallyVerifiedBlock :=
  fun _ => some exBlockOnFinalizedTip

/-- A one-block store holding `exBlockOnFinalizedTip`. -/
def exOneBlockState : NonFinalizedState := ⟨[exBlockOnFinalizedTip]⟩

/-- Expected state after four catch-up iterations from `exStartState`
against `exFetchOnTip`: the store still holds a single block and four
snapshots of that same one-block store were published. -/
def exRunFinal : SyncState :=
  ⟨exOneBlockState, ⟨100, 5, 9⟩,
    [exOneBlockState, exOneBlockState, exOneBlockState, exOneBlockState]⟩

/-- Concrete run input: the fetch always returns absent. -/
def fetchAbsent : Height → Option SemanticallyVerifiedBlock := fun _ => none

/-- Concrete run input: a state whose position is stale — the store is
empty (finalized tip is at height 100, hash 5) but the position still says
height 101, hash 7; remote best tip hash 9. -/
def exStaleState : SyncState := ⟨NonFinalizedState.new, ⟨101, 7, 9⟩, []⟩

/-- Concrete run input: a state with a non-empty store (tip hash 6 at
height 101), position matching it, remote best tip hash 9. -/
def exNonEmptyState : SyncState := ⟨exOneBlockState, ⟨101, 6, 9⟩, []⟩

/-- Concrete run input: a block whose parent hash 5 matches the local tip
hash of `exStartState` but not the finalized tip hash 0 passed in the
commit-failure witness, so `commit_block` on the empty store fails. -/
def exOrphanBlock : SemanticallyVerifiedBlock := mkBlock 5 7 101

/-- Concrete run input: the remote always serves `exOrphanBlock`. -/
def exFetchOrphan : Height → Option SemanticallyVerifiedBlock :=
  fun _ => some exOrphanBlock

end ZebraSync

namespace ZebraSubtree

/-- `zebra_chain::block::Height` as used by `subtree.rs`. -/
abbrev Height := Nat

/-- `NoteCommitmentSubtreeIndex(pub u16)`: a subtree index
(`zebra-chain/src/subtree.rs` line 15). -/
structure NoteCommitmentSubtreeIndex where
  val : Nat
deriving DecidableEq, Repr

/-- `NoteCommitmentSubtree<Node>`: subtree root with its block height and
subtree index (`zebra-chain/src/subtree.rs` lines 34-41). -/
structure NoteCommitmentSubtree (Node : Type) where
  index : NoteCommitmentSubtreeIndex
  «end» : Height
  node : Node
deriving DecidableEq, Repr

/-- `NoteCommitmentSubtreeData<Node>`: the same record without the index
(`zebra-chain/src/subtree.rs` lines 60-65). -/
structure NoteCommitmentSubtreeData (Node : Type) where
  «end» : Height
  node : Node
deriving DecidableEq, Repr

/-- `NoteCommitmentSubtreeData::new` (subtree.rs lines 69-71). -/
def NoteCommitmentSubtreeData.new {Node : Type} (e : Height) (node : Node) :
    NoteCommitmentSubtreeData Node :=
  ⟨e, node⟩

/-- `NoteCommitmentSubtree::new` (subtree.rs lines 45-48); the `Arc` wrapper
is erased and the `impl Into<NoteCommitmentSubtreeIndex>` argument is taken
at the target type. -/
def NoteCommitmentSubtree.new {Node : Type} (index : NoteCommitmentSubtreeIndex)
    (e : Height) (node : Node) : NoteCommitmentSubtree Node :=
  ⟨index, e, node⟩

/-- `NoteCommitmentSubtree::into_data` (subtree.rs lines 51-53). -/
def NoteCommitmentSubtree.into_data {Node : Type} (s : NoteCommitmentSubtree Node) :
    NoteCommitmentSubtreeData Node :=
  NoteCommitmentSubtreeData.new s.«end» s.node

/-- `NoteCommitmentSubtreeData::with_index` (subtree.rs lines 74-79). -/
def NoteCommitmentSubtreeData.with_index {Node : Type}
    (self : NoteCommitmentSubtreeData Node) (index : NoteCommitmentSubtreeIndex) :
    NoteCommitmentSubtree Node :=
  NoteCommitmentSubtree.new index self.«end» self.node

end ZebraSubtree

/-- C10: for every `NoteCommitmentSubtree` `s`, converting it to data and
back round-trips: `s.into_data().with_index(s.index)` equals `s` —
`into_data` keeps the end height and node and drops only the index, and
`with_index` restores it. -/
theorem subtree_into_data_with_index_roundtrip {Node : Type}
    (s : ZebraSubtree.NoteCommitmentSubtree Node) :
    s.into_data.with_index s.index = s := rfl

namespace ZebraSync

/-- Helper: when the fetch returns a block whose parent hash equals the
current tip hash, the step reduces to the commit/drain/publish logic of
sync.rs lines 249-291. -/
theorem syncStep_eq_of_fetch_some (limit : Nat) (fth : Hash) (hr : Bool)
    (fetch : Height → Option SemanticallyVerifiedBlock) (st : SyncState)
    (b : SemanticallyVerifiedBlock)
    (hfe : fetch (syncFetchHeight st.pos) = some b)
    (hpar : b.block.header.previous_block_hash = st.pos.current_tip_hash) :
    syncStep limit fth hr fetch st =
      match (if fth = b.block.header.previous_block_hash then
          st.non_finalized_state.commit_new_chain fth b
        else st.non_finalized_state.commit_block b) with
      | .error _ => .ok (.commitFailed, st)
      | .ok committed_nfs =>
          .ok ((if b.hash = st.pos.node_tip_hash then StepOutcome.caughtUp
                else StepOutcome.committed),
            ⟨committed_nfs.drain limit, st.pos,
              if hr then st.published ++ [committed_nfs.drain limit]
              else st.published⟩) := by
  simp only [syncStep, hfe, Option.filter_some, hpar, beq_self_eq_true, if_true, ne_eq,
    not_true_eq_false, if_false]

/-- C5: when `commit_new_chain` or `commit_block` returns an error, the
iteration ends as a warn-and-continue: the step returns `Ok` with outcome
`commitFailed` and a state exactly equal to the input state — the store is
not reset, nothing is published, the `SyncPosition` is unchanged, and no
error is propagated. -/
theorem sync_commit_error_is_local_retry (limit : Nat) (fth : Hash) (hr : Bool)
    (fetch : Height → Option SemanticallyVerifiedBlock) (st : SyncState)
    (b : SemanticallyVerifiedBlock) (e : CommitError)
    (hfe : fetch (syncFetchHeight st.pos) = some b)
    (hpar : b.block.header.previous_block_hash = st.pos.current_tip_hash)
    (hcommit : (if fth = b.block.header.previous_block_hash then
        st.non_finalized_state.commit_new_chain fth b
      else st.non_finalized_state.commit_block b) = .error e) :
    syncStep limit fth hr fetch st = .ok (.commitFailed, st) := by
  rw [syncStep_eq_of_fetch_some limit fth hr fetch st b hfe hpar, hcommit]

/-- Witness for `sync_commit_error_is_local_retry`: finalized tip hash 0,
local tip hash 5, fetched block with parent 5 and an empty store, so
`commit_block` fails with `NoMatchingParent`. -/
theorem sync_commit_error_is_local_retry_witness :
    exFetchOrphan (syncFetchHeight exStartState.pos) = some exOrphanBlock ∧
    exOrphanBlock.block.header.previous_block_hash =
      exStartState.pos.current_tip_hash ∧
    (if (0 : Hash) = exOrphanBlock.block.header.previous_block_hash then
        exStartState.non_finalized_state.commit_new_chain 0 exOrphanBlock
      else exStartState.non_finalized_state.commit_block exOrphanBlock) =
      .error .noMatchingParent ∧
    syncStep 3 0 true exFetchOrphan exStartState = .ok (.commitFailed, exStartState) :=
  ⟨rfl, rfl, rfl,
    sync_commit_error_is_local_retry 3 0 true exFetchOrphan exStartState
      exOrphanBlock .noMatchingParent rfl rfl rfl⟩

/-- C8: the explicit `parent_hash != current_tip_hash` reset branch
(sync.rs lines 250-253) is unreachable: every block surviving the
preceding `.filter` already satisfies
`block.block.header.previous_block_hash == current_tip_hash`, so no step,
for any inputs, ever takes the `mismatchReset` branch. -/
theorem sync_mismatch_reset_branch_unreachable :
    ∀ (limit : Nat) (fth : Hash) (hr : Bool)
      (fetch : Height → Option SemanticallyVerifiedBlock) (st : SyncState),
    tookMismatchBranch (syncStep limit fth hr fetch st) = false := by
  intro limit fth hr fetch st
  cases hfe : fetch (syncFetchHeight st.pos) with
  | none =>
      unfold syncStep
      rw [hfe, Option.filter_none]
      cases hr <;> rfl
  | some b =>
      by_cases hp : b.block.header.previous_block_hash = st.pos.current_tip_hash
      · rw [syncStep_eq_of_fetch_some limit fth hr fetch st b hfe hp]
        cases hcr : (if fth = b.block.header.previous_block_hash then
            st.non_finalized_state.commit_new_chain fth b
          else st.non_finalized_state.commit_block b) with
        | error e => rfl
        | ok nfs1 =>
            by_cases hb : b.hash = st.pos.node_tip_hash
            · rw [if_pos hb]; rfl
            · rw [if_neg hb]; rfl
      · unfold syncStep
        rw [hfe, Option.filter_some, if_neg (by simp [hp])]
        cases hr <;> rfl

/-- C1: code evaluation at the failing scenario. The claim's Scenario D
says that with reorg limit 3, four consecutive successful commits on top of
the finalized tip invoke `finalize()` exactly once and reduce
`best_chain_len` from 4 to 3. In the source the `SyncPosition` destructured
at sync.rs lines 215-219 is never rebound inside the catch-up loop, so
every fetched block that passes the filter extends the finalized tip and is
committed through `commit_new_chain`, which restarts the chain: running
four iterations that each commit successfully (outcome `committed`) leaves
`best_chain_len` at 1, and the drain loop performs zero `finalize()` calls
(1 is not greater than the limit 3). -/
theorem sync_four_commits_keep_len_one_eval :
    syncRun 3 5 true exFetchOnTip 4 exStartState =
      .ok ([.committed, .committed, .committed, .committed], exRunFinal) ∧
    exRunFinal.non_finalized_state.best_chain_len = some 1 ∧
    NonFinalizedState.drainCount 3 exOneBlockState = 0 :=
  ⟨rfl, rfl, rfl⟩

/-- C2: code evaluation at the failing input. On a reorg signal (here an
absent fetch) the store is reset to empty and the reset is published, but
the catch-up loop continues with the stale pre-reset `SyncPosition`
(height 101, hash 7): the next fetch is again issued at height 101, not at
the finalized tip position (height 100, hash 5) that would be recomputed
from the now-empty store. -/
theorem sync_reset_keeps_stale_position_eval :
    syncStep 3 5 true fetchAbsent exStaleState =
      .ok (.resetContinue,
        ⟨NonFinalizedState.new, ⟨101, 7, 9⟩, [NonFinalizedState.new]⟩) ∧
    syncFetchHeight (⟨101, 7, 9⟩ : SyncPosition) = 101 ∧
    (⟨101, 7, 9⟩ : SyncPosition) ≠ (⟨100, 5, 9⟩ : SyncPosition) :=
  ⟨rfl, rfl, by decide⟩

/-- C3 counterexample: the claim says an absent fetch makes the loop retry
"without resetting the non-finalized store". At a state whose store holds
one block, an absent fetch takes the reset branch: the store comes out
empty (`NonFinalizedState.new`) and the reset snapshot is published. -/
theorem sync_absent_fetch_reset_counterexample :
    syncStep 3 5 true fetchAbsent exNonEmptyState =
      .ok (.resetContinue,
        ⟨NonFinalizedState.new, ⟨101, 6, 9⟩, [NonFinalizedState.new]⟩) ∧
    exNonEmptyState.non_finalized_state ≠ NonFinalizedState.new :=
  ⟨rfl, by decide⟩

/-- C3 (amended): when the `getblock` fetch at the requested height returns
absent, the non-finalized store is reset to empty, the reset state is
published, and the loop retries at the same unchanged `SyncPosition`; the
same reset branch also absorbs a parent-hash mismatch (the `.filter` at
sync.rs line 242 collapses both cases into the `else` arm at lines
243-247). -/
theorem sync_absent_fetch_resets_and_retries (limit : Nat) (fth : Hash)
    (fetch : Height → Option SemanticallyVerifiedBlock) (st : SyncState)
    (habs : fetch (syncFetchHeight st.pos) = none) :
    syncStep limit fth true fetch st =
      .ok (.resetContinue,
        ⟨NonFinalizedState.new, st.pos,
          st.published ++ [NonFinalizedState.new]⟩) := by
  unfold syncStep
  rw [habs]
  rfl

/-- Witness for `sync_absent_fetch_resets_and_retries` at a concrete
input. -/
theorem sync_absent_fetch_resets_and_retries_witness :
    fetchAbsent (syncFetchHeight exNonEmptyState.pos) = none ∧
    syncStep 3 5 true fetchAbsent exNonEmptyState =
      .ok (.resetContinue,
        ⟨NonFinalizedState.new, exNonEmptyState.pos,
          exNonEmptyState.published ++ [NonFinalizedState.new]⟩) :=
  ⟨rfl, sync_absent_fetch_resets_and_retries 3 5 fetchAbsent exNonEmptyState rfl⟩

/-- C4: code evaluation at the failing input. The `getblock` argument at
sync.rs line 228 is `current_tip_height.0` itself: with the local tip at
height 100 the fetch requests height 100 — the block at the tip's own
height — and not height 101, the block immediately after the current local
tip that the claim describes. -/
theorem sync_fetch_requests_current_height_eval :
    (∀ pos : SyncPosition, syncFetchHeight pos = pos.current_tip_height) ∧
    syncFetchHeight ⟨100, 5, 9⟩ = 100 ∧
    100 + 1 = 101 ∧
    syncFetchHeight ⟨100, 5, 9⟩ ≠ 101 :=
  ⟨fun _ => rfl, rfl, rfl, by decide⟩

/-- C6 counterexample: the claim says an absent or failed
best-tip-identifier call is never surfaced as a hard error "for both
wait_for_new_blocks implementations". The free function (sync.rs lines
317-347) applies `?` to the `getbestblockhash` result at line 326: a failed
call is propagated as an error out of the phase. (The method version does
sleep and retry, shown alongside for contrast.) -/
theorem wait_for_new_blocks_error_propagates_counterexample :
    wait_for_new_blocks_iter (.error .transport) none none =
      .error .transport ∧
    TrustedChainSync_wait_for_new_blocks_iter none none none =
      .sleepRetryAbsent :=
  ⟨rfl, rfl⟩

/-- C6 (amended): the method `TrustedChainSync::wait_for_new_blocks`
absorbs a failed `getbestblockhash` call into `None` and sleeps a 100ms
backoff before retrying, never surfacing it; the free function
`wait_for_new_blocks`, however, applies `?` to the call's result and
propagates an RPC failure as a hard error out of the phase (it only sleeps
and retries when the hashes match or no genesis block exists yet). -/
theorem wait_absent_or_error_handling :
    (∀ (nfsTip dbTip : Option (Height × Hash)),
      TrustedChainSync_wait_for_new_blocks_iter none nfsTip dbTip =
        .sleepRetryAbsent) ∧
    (∀ (e : RpcError) (nfsTip dbTip : Option (Height × Hash)),
      wait_for_new_blocks_iter (.error e) nfsTip dbTip = .error e) :=
  ⟨fun _ _ => rfl, fun _ _ _ => rfl⟩

/-- C7 counterexample: the claim says every publication in `sync_from_rpc`
treats a send failure (all receivers dropped) as a no-op and never returns
an error. The reset-path publish at sync.rs line 245 uses `?`: with no
receiver, the step returns the send error, which `sync_from_rpc`
propagates. -/
theorem sync_reset_publish_send_failure_counterexample :
    syncStep 3 5 false fetchAbsent exStaleState = .error .sendFailed :=
  rfl

/-- C7 (amended): the updated-state publish after a successful commit
(sync.rs line 284, `let _ = ... send(..)`) ignores a send failure — with no
receiver the step still returns `Ok` and merely skips recording the
snapshot — but the reset-state publishes on the reorg-signal paths
(sync.rs lines 245 and 252) use `?` and propagate the send failure as an
error from `sync_from_rpc`. -/
theorem sync_publish_send_failure_handling (limit : Nat) (fth : Hash)
    (fetch : Height → Option SemanticallyVerifiedBlock) (st : SyncState)
    (b : SemanticallyVerifiedBlock) (nfs1 : NonFinalizedState)
    (hfe : fetch (syncFetchHeight st.pos) = some b)
    (hpar : b.block.header.previous_block_hash = st.pos.current_tip_hash)
    (hcommit : (if fth = b.block.header.previous_block_hash then
        st.non_finalized_state.commit_new_chain fth b
      else st.non_finalized_state.commit_block b) = .ok nfs1) :
    syncStep limit fth false fetch st =
      .ok ((if b.hash = st.pos.node_tip_hash then StepOutcome.caughtUp
            else StepOutcome.committed),
        ⟨nfs1.drain limit, st.pos, st.published⟩) ∧
    (∀ (fetch2 : Height → Option SemanticallyVerifiedBlock) (st2 : SyncState),
      fetch2 (syncFetchHeight st2.pos) = none →
      syncStep limit fth false fetch2 st2 = .error .sendFailed) := by
  constructor
  · rw [syncStep_eq_of_fetch_some limit fth false fetch st b hfe hpar, hcommit]
    rfl
  · intro fetch2 st2 habs
    unfold syncStep
    rw [habs]
    rfl

/-- Witness for `sync_publish_send_failure_handling` at a concrete input:
a successful `commit_new_chain` with no receiver still returns `Ok`
(nothing recorded as published), while an absent fetch with no receiver
returns the send error. -/
theorem sync_publish_send_failure_handling_witness :
    exFetchOnTip (syncFetchHeight exStartState.pos) =
      some exBlockOnFinalizedTip ∧
    exBlockOnFinalizedTip.block.header.previous_block_hash =
      exStartState.pos.current_tip_hash ∧
    (if (5 : Hash) = exBlockOnFinalizedTip.block.header.previous_block_hash then
        exStartState.non_finalized_state.commit_new_chain 5 exBlockOnFinalizedTip
      else exStartState.non_finalized_state.commit_block exBlockOnFinalizedTip) =
      .ok exOneBlockState ∧
    (syncStep 3 5 false exFetchOnTip exStartState =
      .ok ((if exBlockOnFinalizedTip.hash = exStartState.pos.node_tip_hash then
              StepOutcome.caughtUp
            else StepOutcome.committed),
        ⟨exOneBlockState.drain 3, exStartState.pos, exStartState.published⟩) ∧
    (∀ (fetch2 : Height → Option SemanticallyVerifiedBlock) (st2 : SyncState),
      fetch2 (syncFetchHeight st2.pos) = none →
      syncStep 3 5 false fetch2 st2 = .error .sendFailed)) :=
  ⟨rfl, rfl, rfl,
    sync_publish_send_failure_handling 3 5 exFetchOnTip exStartState
      exBlockOnFinalizedTip exOneBlockState rfl rfl rfl⟩

/-- Helper: every effect a single poll iteration of
`TrustedChainSync::wait_for_new_blocks` performs is a read or a sleep,
never a block fetch, commit, or channel send. -/
theorem wait_effects_not_mutating (s : TrustedChainSyncState)
    (rpcResp : Option Hash) (dbTip : Option (Height × Hash)) :
    ((TrustedChainSync_wait_for_new_blocks_effects s rpcResp dbTip).all
      fun e => !e.isMutating) = true := by
  unfold TrustedChainSync_wait_for_new_blocks_effects
  cases rpcResp with
  | none => rfl
  | some h =>
      cases s.non_finalized_state.best_tip with
      | some tip =>
          obtain ⟨th, thash⟩ := tip
          dsimp only
          split <;> rfl
      | none =>
          cases dbTip with
          | none => rfl
          | some tip =>
              obtain ⟨th, thash⟩ := tip
              dsimp only
              split <;> rfl

/-- C9: `TrustedChainSync::sync` only calls the `&self` method
`wait_for_new_blocks` in an infinite loop (sync.rs lines 95-100), so the
task spawned by `TrustedChainSync::spawn` never fetches a block, never
commits to the non-finalized state, and never sends on the
non-finalized-state or chain-tip channels: for every number of poll
iterations and every sequence of RPC and database responses, the observable
state equals the initial state and the effect trace contains no mutating
effect. -/
theorem TrustedChainSync_sync_never_mutates :
    ∀ (rpcResps : Nat → Option Hash) (dbTips : Nat → Option (Height × Hash))
      (n : Nat) (s : TrustedChainSyncState),
    (TrustedChainSync_sync_run rpcResps dbTips n s).1 = s ∧
    (((TrustedChainSync_sync_run rpcResps dbTips n s).2).all
      fun e => !e.isMutating) = true := by
  intro rpcResps dbTips n
  induction n with
  | zero => intro s; exact ⟨rfl, rfl⟩
  | succ n ih =>
      intro s
      obtain ⟨h1, h2⟩ := ih s
      unfold TrustedChainSync_sync_run TrustedChainSync_sync_iter
      constructor
      · simpa using h1
      · simpa [List.all_append, wait_effects_not_mutating] using h2

end ZebraSync
